import Mathlib

/-!
Shallow embedding of the Bitcoin ETF scraper (src/app.py) and proofs of the
specification claims.

The HTML documents consumed by the scraper are modelled abstractly: a
document is the list of its table elements in document order; a table
carries its class attribute and the list of tr elements that
table.find_all returns; a row carries the list of its td cells; a cell
records the text of a nested span with class tabletext (when one exists,
as found by cell.find) together with the full text of the cell itself.
-/

namespace BtcEtf

/-- Model of a td cell: the text of the first nested span with class
tabletext, if any, and the text content of the whole cell. -/
structure Cell where
  tabletextSpan : Option String
  text : String
deriving DecidableEq, Repr

/-- Model of a tr element: the td cells it contains, in document order. -/
structure Row where
  cells : List Cell
deriving DecidableEq, Repr

/-- Model of a table element: its class attribute (a list of class names)
and its tr rows in document order. -/
structure HtmlTable where
  classAttr : List String
  rows : List Row
deriving DecidableEq, Repr

/-- Model of a parsed HTML document: its table elements in document order. -/
structure Doc where
  tables : List HtmlTable
deriving DecidableEq, Repr

/-- The hardcoded column schema of app.py (line 54). -/
def table_headers : List String :=
  ["Date", "IBIT", "FBTC", "BITB", "ARKB", "BTCO", "EZBC", "BRRR",
   "HODL", "BTCW", "GBTC", "BTC", "Total"]

/-- Failure outcomes of the fetch phase of scrape_bitcoin_etf_data
(the three except clauses, app.py lines 98-109). -/
inductive FetchError where
  | httpError (statusCode : Nat)
  | requestException
  | otherException
deriving DecidableEq, Repr

/-- Failure outcomes of the extraction phase, one per early-return site of
scrape_bitcoin_etf_data: tableNotFound for the message at line 60,
noRowsFound for line 66, noDataFound for line 93. -/
inductive ExtractError where
  | tableNotFound
  | noRowsFound
  | noDataFound
deriving DecidableEq, Repr

/-- The StructureNotFound failure class of the spec: the expected table or
its rows are absent from the markup. -/
def StructureNotFound (e : ExtractError) : Prop :=
  e = .tableNotFound ∨ e = .noRowsFound

/-- The EmptyResult failure class of the spec: the table was found but zero
well-formed rows survived filtering. -/
def EmptyResult (e : ExtractError) : Prop :=
  e = .noDataFound

/-- soup.find with class etf (app.py line 58): the first table whose class
attribute contains etf. -/
def findEtfTable (doc : Doc) : Option HtmlTable :=
  doc.tables.find? fun t => t.classAttr.contains "etf"

/-- Python str.strip with no argument: remove leading and trailing
whitespace characters. -/
def strip (s : String) : String :=
  ⟨((s.data.dropWhile Char.isWhitespace).reverse.dropWhile Char.isWhitespace).reverse⟩

/-- Per-cell extraction (app.py lines 81-86): prefer the stripped text of a
nested span with class tabletext; otherwise the stripped cell text. -/
def extract_cell_text (cell : Cell) : String :=
  match cell.tabletextSpan with
  | some s => strip s
  | none => strip cell.text

/-- The row_data list built by the inner loop (app.py lines 78-86): one
extracted value per cell at index below the schema length. -/
def extract_row_data (cells : List Cell) : List String :=
  (cells.take table_headers.length).map extract_cell_text

/-- Processing of one data row (app.py lines 72-90): rows with no td cells
contribute nothing, and a built row is kept only when its extracted value
count equals the schema length. -/
def process_row (row : Row) : Option (List String) :=
  if row.cells.isEmpty then none
  else
    let row_data := extract_row_data row.cells
    if row_data.length = table_headers.length then some row_data else none

/-- Extraction from the located table (app.py lines 63-96): fail when the
table has no tr rows, drop the first row as the header, filter the data
rows through process_row, and fail when nothing survives. -/
def extract_table (table : HtmlTable) : Except ExtractError (List String × List (List String)) :=
  if table.rows.isEmpty then .error .noRowsFound
  else
    let data := (table.rows.drop 1).filterMap process_row
    if data.isEmpty then .error .noDataFound
    else .ok (table_headers, data)

/-- Extraction from a whole document (app.py lines 58-96): locate the etf
table, then extract from it. -/
def extract_doc (doc : Doc) : Except ExtractError (List String × List (List String)) :=
  match findEtfTable doc with
  | none => .error .tableNotFound
  | some t => extract_table t

/-- scrape_bitcoin_etf_data (app.py lines 13-111), given the outcome of the
network fetch: every fetch failure and every extraction failure is
collapsed to the uniform None, None return value. -/
def scrape_bitcoin_etf_data (fetched : Except FetchError Doc) :
    Option (List String × List (List String)) :=
  match fetched with
  | .error _ => none
  | .ok doc =>
    match extract_doc doc with
    | .error _ => none
    | .ok r => some r

/-- process_data (app.py lines 113-134): when headers and data are both
non-empty, turn every row into the dict pairing headers with the row
values positionally; otherwise return None. -/
def process_data (headers : List String) (data : List (List String)) :
    Option (List (List (String × String))) :=
  if headers.isEmpty || data.isEmpty then none
  else some (data.map fun row => headers.zip row)

theorem process_row_of_le (row : Row) (h : table_headers.length ≤ row.cells.length) :
    process_row row = some (extract_row_data row.cells) := by
  have hne : row.cells.isEmpty = false := by
    cases hc : row.cells with
    | nil => rw [hc] at h; simp [table_headers] at h
    | cons c cs => rfl
  have hlen : (extract_row_data row.cells).length = table_headers.length := by
    simp only [extract_row_data, List.length_map, List.length_take]
    omega
  simp [process_row, hne, hlen]

theorem process_row_none_of_lt (row : Row) (h : row.cells.length < table_headers.length) :
    process_row row = none := by
  by_cases hne : row.cells.isEmpty = true
  · simp [process_row, hne]
  · have hlen : ¬ (extract_row_data row.cells).length = table_headers.length := by
      simp only [extract_row_data, List.length_map, List.length_take]
      omega
    simp [process_row, hne, hlen]

theorem process_row_some_shape (row : Row) (r : List String)
    (h : process_row row = some r) :
    r = extract_row_data row.cells ∧ table_headers.length ≤ row.cells.length := by
  by_cases hne : row.cells.isEmpty = true
  · simp [process_row, hne] at h
  · simp only [process_row, Bool.not_eq_true] at h hne
    rw [hne] at h
    simp only [Bool.false_eq_true, if_false] at h
    split at h
    · rename_i hlen
      cases h
      refine ⟨rfl, ?_⟩
      simp only [extract_row_data, List.length_map, List.length_take] at hlen
      omega
    · exact Option.noConfusion h

theorem process_row_length (row : Row) (r : List String)
    (h : process_row row = some r) : r.length = table_headers.length := by
  obtain ⟨hr, hle⟩ := process_row_some_shape row r h
  subst hr
  simp only [extract_row_data, List.length_map, List.length_take]
  omega

theorem filterMap_process_row_all (rows : List Row)
    (h : ∀ row ∈ rows, table_headers.length ≤ row.cells.length) :
    rows.filterMap process_row = rows.map fun row => extract_row_data row.cells := by
  induction rows with
  | nil => rfl
  | cons r rs ih =>
    have h1 := process_row_of_le r (h r (List.mem_cons_self r rs))
    have h2 := ih fun row hm => h row (List.mem_cons_of_mem r hm)
    simp [List.filterMap_cons, h1, h2]

theorem filterMap_process_row_filter (rows : List Row) :
    rows.filterMap process_row
      = (rows.filter fun row => decide (table_headers.length ≤ row.cells.length)).map
          fun row => extract_row_data row.cells := by
  induction rows with
  | nil => rfl
  | cons r rs ih =>
    by_cases hle : table_headers.length ≤ r.cells.length
    · simp [List.filterMap_cons, List.filter_cons, hle, process_row_of_le r hle, ih]
    · have hlt : r.cells.length < table_headers.length := Nat.lt_of_not_le hle
      simp [List.filterMap_cons, List.filter_cons, hle, process_row_none_of_lt r hlt, ih]

theorem extract_table_ok (t : HtmlTable) (headers : List String)
    (data : List (List String)) (h : extract_table t = .ok (headers, data)) :
    headers = table_headers ∧ data = (t.rows.drop 1).filterMap process_row ∧ data ≠ [] := by
  simp only [extract_table] at h
  split at h
  · exact Except.noConfusion h
  · split at h
    · exact Except.noConfusion h
    · rename_i hne
      rw [Except.ok.injEq, Prod.mk.injEq] at h
      obtain ⟨h1, h2⟩ := h
      subst h1
      subst h2
      refine ⟨rfl, rfl, ?_⟩
      intro hnil
      rw [hnil] at hne
      exact hne rfl

theorem extract_doc_ok (doc : Doc) (headers : List String)
    (data : List (List String)) (h : extract_doc doc = .ok (headers, data)) :
    headers = table_headers ∧ data ≠ [] ∧ ∀ r ∈ data, r.length = table_headers.length := by
  unfold extract_doc at h
  split at h
  · exact Except.noConfusion h
  · rename_i t hf
    obtain ⟨h1, h2, h3⟩ := extract_table_ok t headers data h
    refine ⟨h1, h3, ?_⟩
    intro r hr
    rw [h2] at hr
    obtain ⟨row, _, hrow⟩ := List.mem_filterMap.mp hr
    exact process_row_length row r hrow

theorem scrape_some_shape (fetched : Except FetchError Doc) (headers : List String)
    (data : List (List String))
    (h : scrape_bitcoin_etf_data fetched = some (headers, data)) :
    headers = table_headers ∧ data ≠ [] ∧ ∀ r ∈ data, r.length = table_headers.length := by
  unfold scrape_bitcoin_etf_data at h
  split at h
  · exact Option.noConfusion h
  · rename_i doc
    split at h
    · exact Option.noConfusion h
    · rename_i r heq
      rw [Option.some.injEq] at h
      rw [h] at heq
      exact extract_doc_ok doc headers data heq

/-- The retry bound of the scrape endpoint (app.py line 163). -/
def max_retries : Nat := 3

/-- The JSON reply of the scrape endpoint: either the success body of
app.py lines 173-181 or the error body of lines 190-194. -/
inductive ScrapeResponse where
  | success (message source last_updated : String) (total_records : Nat)
      (columns : List String) (data : List (List (String × String)))
  | error (message suggestion : String)
deriving DecidableEq, Repr

/-- The status field of the reply body. -/
def ScrapeResponse.status : ScrapeResponse → String
  | .success .. => "success"
  | .error .. => "error"

/-- The HTTP status code of the reply: Flask defaults to 200 on the success
path, and the error path returns the body with 500. -/
def ScrapeResponse.httpStatus : ScrapeResponse → Nat
  | .success .. => 200
  | .error .. => 500

/-- The terminal failure reply (app.py lines 190-194). -/
def error_response : ScrapeResponse :=
  .error "Unable to fetch Bitcoin ETF data"
    "Website may be temporarily unavailable. Please try again later."

/-- The success reply (app.py lines 173-181); now stands for the strftime
timestamp taken at response time. -/
def success_response (now : String) (headers : List String)
    (data : List (List String)) : ScrapeResponse :=
  .success "Bitcoin ETF Flow Data" "farside.co.uk" now data.length headers
    ((process_data headers data).getD [])

/-- The retry loop of scrape_endpoint (app.py lines 163-194). fetches gives
the outcome of the network fetch on each attempt; the result pairs the
reply with the number of fetch-extract attempts performed. The first
argument counts attempts already made, the second the attempts left. -/
def scrape_loop (fetches : Nat → Except FetchError Doc) (now : String) :
    Nat → Nat → ScrapeResponse × Nat
  | made, 0 => (error_response, made)
  | made, remaining + 1 =>
    match scrape_bitcoin_etf_data (fetches made) with
    | some (headers, data) =>
      if headers.isEmpty || data.isEmpty then
        scrape_loop fetches now (made + 1) remaining
      else (success_response now headers data, made + 1)
    | none => scrape_loop fetches now (made + 1) remaining

/-- scrape_endpoint (app.py lines 154-194): run the retry loop from zero
attempts made with max_retries attempts available. -/
def scrape_endpoint (fetches : Nat → Except FetchError Doc) (now : String) :
    ScrapeResponse × Nat :=
  scrape_loop fetches now 0 max_retries

/-- Observable side effects of the batch code path: console output, a file
written at a path, or a directory created at a path. -/
inductive Effect where
  | consolePrint
  | fileWrite (path : String)
  | makeDir (path : String)
deriving DecidableEq, Repr

/-- Side effects of process_data (app.py lines 113-134): the sample-data
banner, one line per sample row (at most 3), and the summary line on
success; the no-data line otherwise. No file or directory operation
occurs. -/
def process_data_effects (headers : List String) (data : List (List String)) :
    List Effect :=
  if headers.isEmpty || data.isEmpty then [Effect.consolePrint]
  else Effect.consolePrint :: ((data.take 3).map fun _ => Effect.consolePrint)
    ++ [Effect.consolePrint]

/-- Side effects of main (app.py lines 196-209) after the scrape returns:
the two banner lines, then on success the process_data output and the
completion line, otherwise the failure line. -/
def main_effects (scraped : Option (List String × List (List String))) :
    List Effect :=
  [Effect.consolePrint, Effect.consolePrint] ++
    match scraped with
    | some (headers, data) =>
      if headers.isEmpty || data.isEmpty then [Effect.consolePrint]
      else process_data_effects headers data ++ [Effect.consolePrint]
    | none => [Effect.consolePrint]

/-- A header row as served upstream: header cells are th elements, so the
row has no td cells. -/
def headerRow : Row := ⟨[]⟩

/-- A td cell with no nested tabletext span. -/
def plainCell (s : String) : Cell := ⟨none, s⟩

/-- A well-formed data row with exactly one cell per schema column. -/
def goodRow : Row := ⟨List.replicate 13 (plainCell "100.5")⟩

/-- A document whose etf table holds the header row and one well-formed
data row. -/
def goodDoc : Doc := ⟨[⟨["etf"], [headerRow, goodRow]⟩]⟩

/-- A document whose etf table holds only the header row. -/
def onlyHeaderDoc : Doc := ⟨[⟨["etf"], [headerRow]⟩]⟩

/-- A document with tables but none carrying the etf class. -/
def noTableDoc : Doc := ⟨[⟨["footer"], [headerRow, goodRow]⟩]⟩

/-- A data row with 14 td cells, one more than the schema length. -/
def row14 : Row := ⟨List.replicate 14 (plainCell "7")⟩

/-- A document whose etf table holds the header row and one data row with
14 cells. -/
def doc14 : Doc := ⟨[⟨["etf"], [headerRow, row14]⟩]⟩

/-- A fetcher that fails on every attempt. -/
def failFetcher : Nat → Except FetchError Doc :=
  fun _ => .error .requestException

/-- A fetcher that fails on the first attempt and succeeds from the second
attempt on. -/
def onceFetcher : Nat → Except FetchError Doc :=
  fun n => if n = 0 then .error .requestException else .ok goodDoc

/-- A td cell holding a tabletext span with padded text, inside further
cell text. -/
def spanCell : Cell := ⟨some " 42.0 ", "x 42.0 y"⟩

/-- A well-formed data row whose first cell carries a tabletext span and
whose other cells are plain. -/
def mixedRow : Row := ⟨spanCell :: List.replicate 12 (plainCell " -20.3 ")⟩

theorem extract_table_cons (cls : List String) (hdr : Row) (rest : List Row) :
    extract_table ⟨cls, hdr :: rest⟩
      = if (rest.filterMap process_row).isEmpty then .error .noDataFound
        else .ok (table_headers, rest.filterMap process_row) := rfl

theorem scrape_loop_zero (f : Nat → Except FetchError Doc) (now : String) (made : Nat) :
    scrape_loop f now made 0 = (error_response, made) := rfl

theorem scrape_loop_fail (f : Nat → Except FetchError Doc) (now : String)
    (made remaining : Nat) (h : scrape_bitcoin_etf_data (f made) = none) :
    scrape_loop f now made (remaining + 1) = scrape_loop f now (made + 1) remaining := by
  simp [scrape_loop, h]

theorem scrape_loop_succeed (f : Nat → Except FetchError Doc) (now : String)
    (made remaining : Nat) (headers : List String) (data : List (List String))
    (h : scrape_bitcoin_etf_data (f made) = some (headers, data))
    (hh : headers.isEmpty = false) (hd : data.isEmpty = false) :
    scrape_loop f now made (remaining + 1) = (success_response now headers data, made + 1) := by
  simp [scrape_loop, h, hh, hd]

theorem scrape_endpoint_all_fail (f : Nat → Except FetchError Doc) (now : String)
    (hf : ∀ n, n < max_retries → scrape_bitcoin_etf_data (f n) = none) :
    scrape_endpoint f now = (error_response, 3) :=
  calc scrape_endpoint f now = scrape_loop f now 0 (2 + 1) := rfl
    _ = scrape_loop f now 1 (1 + 1) := scrape_loop_fail f now 0 2 (hf 0 (by decide))
    _ = scrape_loop f now 2 (0 + 1) := scrape_loop_fail f now 1 1 (hf 1 (by decide))
    _ = scrape_loop f now 3 0 := scrape_loop_fail f now 2 0 (hf 2 (by decide))
    _ = (error_response, 3) := rfl

theorem scrape_endpoint_second_success (g : Nat → Except FetchError Doc) (now : String)
    (headers : List String) (data : List (List String))
    (h0 : scrape_bitcoin_etf_data (g 0) = none)
    (h1 : scrape_bitcoin_etf_data (g 1) = some (headers, data)) :
    scrape_endpoint g now = (success_response now headers data, 2) := by
  obtain ⟨hh, hd, _⟩ := scrape_some_shape (g 1) headers data h1
  have hhe : headers.isEmpty = false := by rw [hh]; rfl
  have hde : data.isEmpty = false := by
    cases data with
    | nil => exact absurd rfl hd
    | cons a l => rfl
  calc scrape_endpoint g now = scrape_loop g now 0 (2 + 1) := rfl
    _ = scrape_loop g now 1 (1 + 1) := scrape_loop_fail g now 0 2 h0
    _ = (success_response now headers data, 2) :=
        scrape_loop_succeed g now 1 1 headers data h1 hhe hde

/-- C1 (amended: the claim fails for M = 0 data rows, where the extractor
reports a failure instead of an empty success). For every document whose
etf table consists of one header row followed by M >= 1 data rows, each
with exactly 13 cells, extraction succeeds with exactly M records, each of
exactly 13 fields, in source row order. -/
theorem C1_extractor_row_count (doc : Doc) (t : HtmlTable) (hdr : Row) (drows : List Row)
    (hfind : findEtfTable doc = some t)
    (hrows : t.rows = hdr :: drows)
    (hne : drows ≠ [])
    (hall : ∀ row ∈ drows, row.cells.length = table_headers.length) :
    extract_doc doc = .ok (table_headers, drows.map fun row => extract_row_data row.cells)
    ∧ (drows.map fun row => extract_row_data row.cells).length = drows.length
    ∧ ∀ r ∈ drows.map (fun row => extract_row_data row.cells),
        r.length = table_headers.length := by
  have hfm : drows.filterMap process_row = drows.map fun row => extract_row_data row.cells :=
    filterMap_process_row_all drows fun row hm => le_of_eq (hall row hm).symm
  refine ⟨?_, List.length_map drows _, ?_⟩
  · obtain ⟨cls, rows⟩ := t
    simp only at hrows
    subst hrows
    simp only [extract_doc, hfind]
    rw [extract_table_cons, hfm]
    have hemp : (drows.map fun row => extract_row_data row.cells).isEmpty = false := by
      cases drows with
      | nil => exact absurd rfl hne
      | cons a l => rfl
    rw [hemp]
    rfl
  · intro r hr
    obtain ⟨row, hrow, hre⟩ := List.mem_map.mp hr
    subst hre
    have hlen := hall row hrow
    simp only [extract_row_data, List.length_map, List.length_take]
    omega

/-- C1 witness: on the document with one well-formed data row, extraction
returns that single record. -/
theorem C1_extractor_row_count_witness :
    extract_doc goodDoc = .ok (table_headers, [extract_row_data goodRow.cells])
    ∧ [extract_row_data goodRow.cells].length = [goodRow].length
    ∧ ∀ r ∈ [goodRow].map (fun row => extract_row_data row.cells),
        r.length = table_headers.length :=
  C1_extractor_row_count goodDoc ⟨["etf"], [headerRow, goodRow]⟩ headerRow [goodRow]
    rfl rfl (List.cons_ne_nil goodRow [])
    (by intro row hm; rw [List.mem_singleton.mp hm]; rfl)

/-- C1 counterexample: for the document whose etf table has the header row
and M = 0 data rows (a vacuously well-formed table), the extractor fails
with the no-data error instead of returning an empty record list. -/
theorem C1_counterexample :
    findEtfTable onlyHeaderDoc = some ⟨["etf"], [headerRow]⟩
    ∧ extract_doc onlyHeaderDoc = .error .noDataFound
    ∧ ¬ extract_doc onlyHeaderDoc = .ok (table_headers, []) := by
  refine ⟨rfl, rfl, ?_⟩
  intro h
  have h2 : Except.error (ε := ExtractError) ExtractError.noDataFound
      = Except.ok (table_headers, ([] : List (List String))) :=
    (rfl : extract_doc onlyHeaderDoc = .error .noDataFound).symm.trans h
  exact Except.noConfusion h2

/-- C2 (amended: only rows with fewer than 13 cells are dropped; a row with
more than 13 cells is kept, truncated to its first 13 cells). Extraction
from a table equals extraction from the same table with the short rows
removed, every data row with fewer than 13 cells is dropped, and every
data row with at least 13 cells contributes its first 13 extracted
values. -/
theorem C2_row_filtering (cls : List String) (hdr : Row) (drows : List Row) :
    extract_table ⟨cls, hdr :: drows⟩
      = extract_table ⟨cls, hdr ::
          (drows.filter fun row => decide (table_headers.length ≤ row.cells.length))⟩
    ∧ (∀ row ∈ drows, row.cells.length < table_headers.length → process_row row = none)
    ∧ (∀ row ∈ drows, table_headers.length ≤ row.cells.length →
        process_row row = some (extract_row_data row.cells)) := by
  have hR : (drows.filter fun row =>
        decide (table_headers.length ≤ row.cells.length)).filterMap process_row
      = (drows.filter fun row =>
          decide (table_headers.length ≤ row.cells.length)).map
            fun row => extract_row_data row.cells := by
    apply filterMap_process_row_all
    intro row hm
    exact of_decide_eq_true (List.mem_filter.mp hm).2
  refine ⟨?_, ?_, ?_⟩
  · rw [extract_table_cons, extract_table_cons, hR, filterMap_process_row_filter]
  · intro row _ hlt
    exact process_row_none_of_lt row hlt
  · intro row _ hle
    exact process_row_of_le row hle

/-- C2 witness: dropping the short rows from a mixed table leaves the
extraction unchanged, and a 13-cell row is kept while an empty row is
dropped. -/
theorem C2_row_filtering_witness :
    extract_table ⟨["etf"], [headerRow, ⟨[]⟩, goodRow]⟩
      = extract_table ⟨["etf"], headerRow ::
          ([(⟨[]⟩ : Row), goodRow].filter fun row =>
            decide (table_headers.length ≤ row.cells.length))⟩
    ∧ process_row ⟨[]⟩ = none
    ∧ process_row goodRow = some (extract_row_data goodRow.cells) :=
  ⟨(C2_row_filtering ["etf"] headerRow [⟨[]⟩, goodRow]).1,
   (C2_row_filtering ["etf"] headerRow [⟨[]⟩, goodRow]).2.1 ⟨[]⟩ (by simp) (by decide),
   (C2_row_filtering ["etf"] headerRow [⟨[]⟩, goodRow]).2.2 goodRow (by simp) (by decide)⟩

/-- C2 counterexample: a data row with 14 cells is not dropped; extraction
keeps it, truncated to its first 13 extracted values. -/
theorem C2_counterexample :
    row14.cells.length = 14
    ∧ ¬ row14.cells.length = table_headers.length
    ∧ extract_doc doc14 = .ok (table_headers, [extract_row_data row14.cells])
    ∧ (extract_row_data row14.cells).length = table_headers.length := by
  refine ⟨rfl, by decide, rfl, rfl⟩

/-- C3: when every fetch-extract attempt fails, the scrape endpoint makes
exactly 3 (= max_retries) attempts and returns the terminal failure reply;
when the first attempt fails and the second succeeds, it makes exactly 2
attempts and returns the success reply, skipping the remaining attempt. -/
theorem C3_retry_driver (f g : Nat → Except FetchError Doc) (now : String)
    (headers : List String) (data : List (List String))
    (hf : ∀ n, n < max_retries → scrape_bitcoin_etf_data (f n) = none)
    (h0 : scrape_bitcoin_etf_data (g 0) = none)
    (h1 : scrape_bitcoin_etf_data (g 1) = some (headers, data)) :
    scrape_endpoint f now = (error_response, 3)
    ∧ (scrape_endpoint f now).1.status = "error"
    ∧ scrape_endpoint g now = (success_response now headers data, 2)
    ∧ (scrape_endpoint g now).1.status = "success" := by
  have hF := scrape_endpoint_all_fail f now hf
  have hG := scrape_endpoint_second_success g now headers data h0 h1
  refine ⟨hF, ?_, hG, ?_⟩
  · rw [hF]; rfl
  · rw [hG]; rfl

/-- C3 witness: the always-failing fetcher yields the failure reply after 3
attempts; the fail-once fetcher yields the success reply after 2. -/
theorem C3_retry_driver_witness :
    scrape_endpoint failFetcher "t" = (error_response, 3)
    ∧ (scrape_endpoint failFetcher "t").1.status = "error"
    ∧ scrape_endpoint onceFetcher "t"
        = (success_response "t" table_headers [extract_row_data goodRow.cells], 2)
    ∧ (scrape_endpoint onceFetcher "t").1.status = "success" :=
  C3_retry_driver failFetcher onceFetcher "t" table_headers
    [extract_row_data goodRow.cells] (fun _ _ => rfl) rfl rfl

/-- C4: in every processed data row, the value extracted at a cell is the
trimmed text of its nested tabletext span when one is present, and the
trimmed text of the cell itself otherwise. -/
theorem C4_cell_extraction (row : Row) (r : List String) (i : Nat) (cell : Cell)
    (h : process_row row = some r)
    (hcell : row.cells[i]? = some cell)
    (hi : i < table_headers.length) :
    r[i]? = some (extract_cell_text cell)
    ∧ (∀ s, cell.tabletextSpan = some s → extract_cell_text cell = strip s)
    ∧ (cell.tabletextSpan = none → extract_cell_text cell = strip cell.text) := by
  obtain ⟨hr, _⟩ := process_row_some_shape row r h
  subst hr
  refine ⟨?_, ?_, ?_⟩
  · simp only [extract_row_data, List.getElem?_map, List.getElem?_take_of_lt hi, hcell]
    rfl
  · intro s hs
    simp [extract_cell_text, hs]
  · intro hnone
    simp [extract_cell_text, hnone]

/-- C4 witness: in a processed row, a span-bearing cell yields the trimmed
span text and a plain cell yields the trimmed cell text. -/
theorem C4_cell_extraction_witness :
    ((extract_row_data mixedRow.cells)[0]? = some (extract_cell_text spanCell)
      ∧ extract_cell_text spanCell = "42.0")
    ∧ ((extract_row_data mixedRow.cells)[1]? = some (extract_cell_text (plainCell " -20.3 "))
      ∧ extract_cell_text (plainCell " -20.3 ") = "-20.3") :=
  ⟨⟨(C4_cell_extraction mixedRow (extract_row_data mixedRow.cells) 0 spanCell
      rfl rfl (by decide)).1, rfl⟩,
   ⟨(C4_cell_extraction mixedRow (extract_row_data mixedRow.cells) 1 (plainCell " -20.3 ")
      rfl rfl (by decide)).1, rfl⟩⟩

/-- C5 (amended: a marker table containing only a header row fails with the
EmptyResult class, not StructureNotFound). A document with no etf table
fails as StructureNotFound; an etf table with only the header row fails as
EmptyResult; an etf table whose data rows all have fewer than 13 cells
fails as EmptyResult. -/
theorem C5_failure_classes (doc : Doc) (t : HtmlTable) (hdr : Row) (drows : List Row) :
    (findEtfTable doc = none →
      extract_doc doc = .error .tableNotFound ∧ StructureNotFound .tableNotFound)
    ∧ (findEtfTable doc = some t → t.rows = [hdr] →
      extract_doc doc = .error .noDataFound ∧ EmptyResult .noDataFound)
    ∧ (findEtfTable doc = some t → t.rows = hdr :: drows →
      (∀ row ∈ drows, row.cells.length < table_headers.length) →
      extract_doc doc = .error .noDataFound ∧ EmptyResult .noDataFound) := by
  refine ⟨?_, ?_, ?_⟩
  · intro h
    simp only [extract_doc, h]
    exact ⟨trivial, Or.inl rfl⟩
  · intro h hr
    obtain ⟨cls, rows⟩ := t
    simp only at hr
    subst hr
    simp only [extract_doc, h]
    rw [extract_table_cons]
    exact ⟨rfl, rfl⟩
  · intro h hr hall
    obtain ⟨cls, rows⟩ := t
    simp only at hr
    subst hr
    have hfm : drows.filterMap process_row = [] := by
      rw [filterMap_process_row_filter]
      have hfilter : drows.filter
          (fun row => decide (table_headers.length ≤ row.cells.length)) = [] := by
        rw [List.filter_eq_nil_iff]
        intro row hm
        simp only [decide_eq_true_eq]
        exact Nat.not_le.mpr (hall row hm)
      rw [hfilter]
      rfl
    simp only [extract_doc, h]
    rw [extract_table_cons, hfm]
    exact ⟨rfl, rfl⟩

/-- C5 witness: a document with no etf table fails as StructureNotFound,
and an etf table whose sole data row has fewer than 13 cells fails as
EmptyResult. -/
theorem C5_failure_classes_witness :
    (extract_doc noTableDoc = .error .tableNotFound ∧ StructureNotFound .tableNotFound)
    ∧ (extract_doc ⟨[⟨["etf"], [headerRow, ⟨[plainCell "x"]⟩]⟩]⟩
        = .error .noDataFound ∧ EmptyResult .noDataFound) :=
  ⟨(C5_failure_classes noTableDoc ⟨[], []⟩ headerRow []).1 rfl,
   (C5_failure_classes ⟨[⟨["etf"], [headerRow, ⟨[plainCell "x"]⟩]⟩]⟩
      ⟨["etf"], [headerRow, ⟨[plainCell "x"]⟩]⟩ headerRow [⟨[plainCell "x"]⟩]).2.2
      rfl rfl (by intro row hm; rw [List.mem_singleton.mp hm]; decide)⟩

/-- C5 counterexample: the etf table holding only its header row fails with
the no-data error, which is the EmptyResult class and not the
StructureNotFound class the claim names. -/
theorem C5_counterexample :
    findEtfTable onlyHeaderDoc = some ⟨["etf"], [headerRow]⟩
    ∧ extract_doc onlyHeaderDoc = .error .noDataFound
    ∧ EmptyResult .noDataFound
    ∧ ¬ StructureNotFound .noDataFound := by
  refine ⟨rfl, rfl, rfl, ?_⟩
  intro h
  cases h with
  | inl h2 => exact ExtractError.noConfusion h2
  | inr h2 => exact ExtractError.noConfusion h2

/-- C6: the extractor never returns a successful result with zero records:
success implies a non-empty record list, and when the table was found with
rows but zero data rows survive filtering the outcome is the EmptyResult
failure. -/
theorem C6_no_empty_success (fetched : Except FetchError Doc) (headers : List String)
    (data : List (List String)) (doc : Doc) (t : HtmlTable) :
    (scrape_bitcoin_etf_data fetched = some (headers, data) → data ≠ [])
    ∧ (findEtfTable doc = some t → t.rows ≠ [] →
        (t.rows.drop 1).filterMap process_row = [] →
        extract_doc doc = .error .noDataFound ∧ EmptyResult .noDataFound) := by
  refine ⟨fun h => (scrape_some_shape fetched headers data h).2.1, ?_⟩
  intro hf hne hfm
  obtain ⟨cls, rows⟩ := t
  cases rows with
  | nil => exact absurd rfl hne
  | cons hdr rest =>
    have hfm2 : rest.filterMap process_row = [] := hfm
    simp only [extract_doc, hf]
    rw [extract_table_cons, hfm2]
    exact ⟨rfl, rfl⟩

/-- C6 witness: the successful scrape of the one-row document has a
non-empty record list, and the all-malformed table yields EmptyResult. -/
theorem C6_no_empty_success_witness :
    ([extract_row_data goodRow.cells] ≠ ([] : List (List String)))
    ∧ (extract_doc ⟨[⟨["etf"], [headerRow, ⟨[plainCell "solo"]⟩]⟩]⟩
        = .error .noDataFound ∧ EmptyResult .noDataFound) :=
  ⟨(C6_no_empty_success (.ok goodDoc) table_headers [extract_row_data goodRow.cells]
      goodDoc ⟨[], []⟩).1 rfl,
   (C6_no_empty_success (.ok goodDoc) table_headers [extract_row_data goodRow.cells]
      ⟨[⟨["etf"], [headerRow, ⟨[plainCell "solo"]⟩]⟩]⟩
      ⟨["etf"], [headerRow, ⟨[plainCell "solo"]⟩]⟩).2 rfl
      (List.cons_ne_nil headerRow [⟨[plainCell "solo"]⟩]) rfl⟩

/-- C7 (amended: the batch path writes no artifacts at all; its docstring
says it returns the data without saving to files). Every run of the batch
path emits only console output, with no file written and no directory
created, and on success process_data returns the records as header-value
pairings. -/
theorem C7_batch_no_artifacts (scraped : Option (List String × List (List String)))
    (headers : List String) (data : List (List String)) :
    ((main_effects scraped).all fun e => decide (e = Effect.consolePrint)) = true
    ∧ (headers.isEmpty = false → data.isEmpty = false →
        process_data headers data = some (data.map fun row => headers.zip row)) := by
  constructor
  · cases scraped with
    | none => rfl
    | some pr =>
      obtain ⟨h, d⟩ := pr
      by_cases hh : h.isEmpty = true
      · simp [main_effects, hh]
      · by_cases hd : d.isEmpty = true
        · simp [main_effects, hh, hd]
        · simp only [Bool.not_eq_true] at hh hd
          simp [main_effects, process_data_effects, hh, hd, List.all_append,
            List.all_eq_true, List.mem_map]
  · intro hh hd
    simp [process_data, hh, hd]

/-- C7 witness: for the successful one-row scrape, every effect of the
batch path is console output. -/
theorem C7_batch_no_artifacts_witness :
    ((main_effects (some (table_headers, [extract_row_data goodRow.cells]))).all
      fun e => decide (e = Effect.consolePrint)) = true :=
  (C7_batch_no_artifacts (some (table_headers, [extract_row_data goodRow.cells]))
    table_headers [extract_row_data goodRow.cells]).1

/-- C7 counterexample: a concrete successful batch run produces console
output only, six print effects and no file or directory effect, so no JSON
or CSV artifact is written. -/
theorem C7_counterexample :
    scrape_bitcoin_etf_data (.ok goodDoc)
      = some (table_headers, [extract_row_data goodRow.cells])
    ∧ main_effects (some (table_headers, [extract_row_data goodRow.cells]))
      = List.replicate 6 Effect.consolePrint
    ∧ (main_effects (some (table_headers, [extract_row_data goodRow.cells]))).countP
        (fun e => match e with
          | Effect.fileWrite _ => true
          | Effect.makeDir _ => true
          | Effect.consolePrint => false) = 0 :=
  ⟨rfl, rfl, rfl⟩

/-- C8: when every attempt fails, the endpoint reply is the fixed error
body, with status error and HTTP status 500, carrying no information from
the intermediate attempt failures. -/
theorem C8_error_reply (f : Nat → Except FetchError Doc) (now : String)
    (hf : ∀ n, n < max_retries → scrape_bitcoin_etf_data (f n) = none) :
    scrape_endpoint f now
      = (ScrapeResponse.error "Unable to fetch Bitcoin ETF data"
          "Website may be temporarily unavailable. Please try again later.", max_retries)
    ∧ (scrape_endpoint f now).1.status = "error"
    ∧ (scrape_endpoint f now).1.httpStatus = 500 := by
  have hF := scrape_endpoint_all_fail f now hf
  refine ⟨hF, ?_, ?_⟩
  · rw [hF]; rfl
  · rw [hF]; rfl

/-- C8 witness: the always-failing fetcher yields the fixed error reply
with status error and HTTP 500. -/
theorem C8_error_reply_witness :
    scrape_endpoint failFetcher "t2"
      = (ScrapeResponse.error "Unable to fetch Bitcoin ETF data"
          "Website may be temporarily unavailable. Please try again later.", max_retries)
    ∧ (scrape_endpoint failFetcher "t2").1.status = "error"
    ∧ (scrape_endpoint failFetcher "t2").1.httpStatus = 500 :=
  C8_error_reply failFetcher "t2" (fun _ _ => rfl)

/-- C9: scrape_bitcoin_etf_data returns one of exactly two shapes: None on
any failure, or the 13-name schema together with a non-empty record list
in which every record has exactly 13 fields. -/
theorem C9_result_shape (fetched : Except FetchError Doc) :
    (∀ e, fetched = Except.error e → scrape_bitcoin_etf_data fetched = none)
    ∧ (scrape_bitcoin_etf_data fetched = none
      ∨ ∃ data, scrape_bitcoin_etf_data fetched = some (table_headers, data)
          ∧ table_headers.length = 13
          ∧ data ≠ [] ∧ ∀ r ∈ data, r.length = 13) := by
  constructor
  · intro e he
    rw [he]
    rfl
  · cases hs : scrape_bitcoin_etf_data fetched with
    | none => exact Or.inl rfl
    | some pr =>
      obtain ⟨headers, data⟩ := pr
      obtain ⟨hh, hd, hr⟩ := scrape_some_shape fetched headers data hs
      subst hh
      exact Or.inr ⟨data, rfl, rfl, hd, fun r hm => hr r hm⟩

/-- C10: every successful extraction returns the fixed hardcoded 13-name
schema, and the header row is discarded unread: replacing it by any other
row leaves the extraction result unchanged. -/
theorem C10_fixed_schema (doc : Doc) (headers : List String) (data : List (List String))
    (cls : List String) (hdr hdr2 : Row) (rest : List Row) :
    (extract_doc doc = .ok (headers, data) → headers = table_headers)
    ∧ extract_table ⟨cls, hdr :: rest⟩ = extract_table ⟨cls, hdr2 :: rest⟩ := by
  refine ⟨fun h => (extract_doc_ok doc headers data h).1, ?_⟩
  rw [extract_table_cons, extract_table_cons]

/-- C10 witness: the schema of the successful one-row extraction is the
hardcoded list, and swapping the header row for a full data row changes
nothing. -/
theorem C10_fixed_schema_witness :
    table_headers = table_headers
    ∧ extract_table ⟨["etf"], [headerRow, goodRow]⟩
      = extract_table ⟨["etf"], [row14, goodRow]⟩ :=
  ⟨(C10_fixed_schema goodDoc table_headers [extract_row_data goodRow.cells]
      ["etf"] headerRow row14 [goodRow]).1 rfl,
   (C10_fixed_schema goodDoc table_headers [extract_row_data goodRow.cells]
      ["etf"] headerRow row14 [goodRow]).2⟩

end BtcEtf
